import Mathlib

/-!
Verification of the note-edit pipeline (`packages/backend/src/core/NoteEditService.ts`)
against its natural-language specification.

The TypeScript service is shallowly embedded: each phase of `edit` becomes a pure
Lean function over an explicit environment (`Env`) holding the repositories,
instance settings and the store outcome.  External collaborators that are not
part of the repository sources (keyword matcher, search normalizer, MFM
tokenizer, federation transport) are modelled from the spec and marked as such
in their doc comments.  Strings are compared by Unicode code points
(`String.data`); JavaScript UTF-16 lengths are modelled as code-point counts.
-/

namespace NoteEdit

/-- Code-point length of a string (models `Array.from(s).length`). -/
def strLen (s : String) : Nat := s.data.length

/-- Whitespace test used by the text-trim model. -/
def isWsChar (c : Char) : Bool := c == ' ' || c == '\t' || c == '\n' || c == '\r'

/-- Models `String.prototype.trim`: drop leading and trailing whitespace. -/
def trimStr (s : String) : String :=
  String.mk (((s.data.dropWhile isWsChar).reverse.dropWhile isWsChar).reverse)

/-- Models `String.prototype.slice(0, n)` (code points; JS counts UTF-16 units). -/
def takeStr (n : Nat) (s : String) : String := String.mk (s.data.take n)

/-- Does `pat` occur as a prefix of `l`? -/
def prefixMatches : List Char → List Char → Bool
  | [], _ => true
  | _ :: _, [] => false
  | a :: as, b :: bs => a == b && prefixMatches as bs

/-- Does `pat` occur as a contiguous sublist of `l`? -/
def containsSub (pat : List Char) : List Char → Bool
  | [] => pat.isEmpty
  | b :: bs => prefixMatches pat (b :: bs) || containsSub pat bs

/-- Substring occurrence on strings. -/
def containsSubstrStr (s pat : String) : Bool := containsSub pat.data s.data

/-- Modelled from the spec: `UtilityService.isKeyWordIncluded` is not under
`src/`; §4.1 of the spec says the text is rejected/downgraded when it
"contains a (sensitive/prohibited) keyword", so keyword inclusion is modelled
as substring occurrence of any keyword. -/
def isKeyWordIncluded (text : String) (keyWords : List String) : Bool :=
  keyWords.any (fun k => containsSubstrStr text k)

/-- Modelled from the spec: `UtilityService.isSilencedHost` is not under
`src/`; the spec (§6) speaks of a "silenced-host list", modelled as list
membership of the poster's host. -/
def isSilencedHost (silencedHosts : List String) (host : Option String) : Bool :=
  match host with
  | some h => silencedHosts.contains h
  | none => false

/-- Modelled from the spec: `normalizeForSearch` (`@/misc/normalize-for-search.js`)
is not under `src/`; §4.4 says tags are "case/width-normalized before storage",
modelled as a per-code-point lowercase mapping. -/
def normalizeForSearch (s : String) : String := String.mk (s.data.map Char.toLower)

/-- Modelled from the spec: `DB_MAX_NOTE_TEXT_LENGTH` (`@/const.js`) is not under
`src/`; §4.4 says text is "hard-truncated to a fixed maximum length". -/
def DB_MAX_NOTE_TEXT_LENGTH : Nat := 8192

/-- The `NotificationType` union from `NoteEditService.ts` line 57. -/
inductive NotificationType where
  | reply
  | renote
  | quote
  | mention
deriving DecidableEq

/-- One element of the denormalized `mentionedRemoteUsers` blob (the TS code
stores it JSON-serialized; the embedding keeps the structured list). -/
structure RemoteMentionEntry where
  uri : Option String
  url : Option String
  username : String
  host : Option String
deriving DecidableEq

/-- The post record (`MiNote`), restricted to the fields the edit pipeline
reads or writes.  Relation fields (`reply`, `renote`, `channel` objects) are
TypeORM join artifacts that `findOneByOrFail` leaves unloaded, so stored notes
carry only the scalar columns. -/
structure MiNote where
  id : String
  updatedAt : Nat := 0
  fileIds : List String := []
  replyId : Option String := none
  renoteId : Option String := none
  channelId : Option String := none
  threadId : Option String := none
  name : Option String := none
  text : Option String := none
  cw : Option String := none
  hasPoll : Bool := false
  tags : List String := []
  emojis : List String := []
  userId : String
  localOnly : Bool := false
  reactionAcceptance : Option String := none
  visibility : String := "public"
  visibleUserIds : List String := []
  attachedFileTypes : List String := []
  replyUserId : Option String := none
  replyUserHost : Option String := none
  renoteUserId : Option String := none
  renoteUserHost : Option String := none
  userHost : Option String := none
  mentions : List String := []
  mentionedRemoteUsers : List RemoteMentionEntry := []
  uri : Option String := none
  url : Option String := none
deriving DecidableEq

/-- The channel fields the pipeline reads. -/
structure MiChannel where
  id : String
deriving DecidableEq

/-- A user identity (`MinimumUser` in the TS source). -/
structure MiUser where
  id : String
  username : String := ""
  host : Option String := none
  uri : Option String := none
deriving DecidableEq

/-- A drive file: the pipeline reads only `id` and `type`. -/
structure MiDriveFile where
  id : String
  fileType : String := ""
deriving DecidableEq

/-- A poll payload (`IPoll`). -/
structure IPoll where
  choices : List String := []
  multiple : Bool := false
  expiresAt : Option Nat := none
deriving DecidableEq

/-- Instance-wide settings consumed by the pipeline (`metaService.fetch()`). -/
structure Meta where
  sensitiveWords : List String := []
  prohibitedWords : List String := []
  silencedHosts : List String := []
  enableChartsForRemoteUser : Bool := false
  enableChartsForFederatedInstances : Bool := false
deriving DecidableEq

/-- Outcome of the atomic store update (`notesRepository.update`), an input of
each run: success, a uniqueness violation, or some other storage error. -/
inductive StoreResult where
  | ok
  | dupKey
  | otherError (code : Nat)
deriving DecidableEq

/-- The error taxonomy of `edit`, one tag per `throw` site. -/
inductive EditError where
  | noSuchNote
  | notFound
  | containsProhibitedWords
  | renoteNotAllowed
  | blocked
  | invalidParam
  | duplicated
  | storageOther (code : Nat)
deriving DecidableEq

/-- The acting user, as `edit` receives it. -/
structure UserLite where
  id : String
  username : String := ""
  host : Option String := none
  isBot : Bool := false
  isCat : Bool := false
deriving DecidableEq

/-- MFM token shapes consumed by the extractors (the tokenizer itself is an
out-of-scope collaborator; only these node kinds are read). -/
inductive MfmNode where
  | hashtag (tag : String)
  | emojiCode (name : String)
  | mentionNode (username : String) (host : Option String)
  | plainText (value : String)
deriving DecidableEq

/-- The edit payload (`Option` type in the TS source, lines 122-142):
`none` means "unspecified, inherit from the target note". -/
structure EditData where
  name : Option String := none
  text : Option String := none
  reply : Option MiNote := none
  renote : Option MiNote := none
  files : Option (List MiDriveFile) := none
  poll : Option IPoll := none
  localOnly : Option Bool := none
  reactionAcceptance : Option String := none
  cw : Option String := none
  visibility : Option String := none
  visibleUsers : Option (List MiUser) := none
  channel : Option MiChannel := none
  apMentions : Option (List MiUser) := none
  apHashtags : Option (List String) := none
  apEmojis : Option (List String) := none
  uri : Option String := none
  url : Option String := none
deriving DecidableEq

/-- The world an `edit` call runs against: repositories, settings, the remote
resolver universe, the MFM tokenizer, and the store-update outcome. -/
structure Env where
  notes : List MiNote := []
  channels : List MiChannel := []
  users : List MiUser := []
  polls : List (String × IPoll) := []
  driveFiles : List MiDriveFile := []
  profileUrls : List (String × Option String) := []
  meta : Meta := {}
  canPublicNotePolicy : List (String × Bool) := []
  blocks : List (String × String) := []
  parse : String → List MfmNode := fun _ => []
  now : Nat := 0
  configUrl : String := "https://local.test"
  storeResult : StoreResult := .ok

/-! ## NotificationManager (lines 59-113)

The queue is a list of `(target, reason)` entries; `push` is embedded exactly
as written: self-pushes are dropped, an existing entry for the target is
updated in place unless the incoming reason is `mention`, otherwise a new
entry is appended. -/

/-- One entry of the notification queue. -/
structure NQEntry where
  target : String
  reason : NotificationType
deriving DecidableEq

/-- Update the reason of the first entry for `t` (the TS code mutates the
object returned by `Array.prototype.find`). -/
def updateFirstReason : List NQEntry → String → NotificationType → List NQEntry
  | [], _, _ => []
  | e :: es, t, r =>
    if e.target == t then { e with reason := r } :: es
    else e :: updateFirstReason es t r

/-- Embeds `NotificationManager.push` (lines 78-96). -/
def nmPush (notifierId : String) (q : List NQEntry)
    (notifiee : String) (reason : NotificationType) : List NQEntry :=
  if notifierId == notifiee then q
  else if q.any (fun e => e.target == notifiee) then
    if reason != NotificationType.mention then updateFirstReason q notifiee reason else q
  else
    q ++ [{ target := notifiee, reason := reason }]

/-- Fold a sequence of `push` calls over a starting queue. -/
def nmPushAll (notifierId : String) (q : List NQEntry)
    (ps : List (String × NotificationType)) : List NQEntry :=
  ps.foldl (fun acc p => nmPush notifierId acc p.1 p.2) q

/-- Number of queue entries naming target `t`. -/
def countTarget (t : String) (q : List NQEntry) : Nat :=
  (q.filter (fun e => e.target == t)).length

/-- The reason currently queued for target `t`, if any. -/
def getReason (q : List NQEntry) (t : String) : Option NotificationType :=
  (q.find? (fun e => e.target == t)).map (fun e => e.reason)

/-! ## Content extractors

`extractHashtags`, `extractCustomEmojisFromMfm` and `extractMentions` live in
`@/misc/`, outside `src/`.  Modelled from the spec (§4.2): they derive
hashtags / custom-emoji references / mention tokens from the token stream,
deduplicated in first-seen order. -/

/-- First-seen-order deduplication. -/
def dedupFirstAux (seen : List String) : List String → List String
  | [] => []
  | x :: xs =>
    if seen.contains x then dedupFirstAux seen xs
    else x :: dedupFirstAux (x :: seen) xs

/-- First-seen-order deduplication of a string list. -/
def dedupFirst (l : List String) : List String := dedupFirstAux [] l

/-- Modelled from the spec: `extractHashtags` (`@/misc/extract-hashtags.js`)
is not under `src/`; hashtag payloads in stream order, deduplicated. -/
def extractHashtags (nodes : List MfmNode) : List String :=
  dedupFirst (nodes.filterMap (fun n => match n with
    | .hashtag t => some t
    | _ => none))

/-- Modelled from the spec: `extractCustomEmojisFromMfm` is not under `src/`;
emoji-code payloads in stream order, deduplicated. -/
def extractCustomEmojis (nodes : List MfmNode) : List String :=
  dedupFirst (nodes.filterMap (fun n => match n with
    | .emojiCode e => some e
    | _ => none))

/-- Modelled from the spec: `extractMentions` (`@/misc/extract-mentions.js`)
is not under `src/`; mention tokens in stream order. -/
def extractMentionTokens (nodes : List MfmNode) : List (String × Option String) :=
  nodes.filterMap (fun n => match n with
    | .mentionNode u h => some (u, h)
    | _ => none)

/-- Models `RemoteUserResolveService.resolveUser` as a lookup in the user
universe by `(username, host)`; a miss models a failed remote resolution. -/
def resolveUser (env : Env) (username : String) (host : Option String) : Option MiUser :=
  env.users.find? (fun u => u.username == username && u.host == host)

/-- Drop users already seen (by id), keeping the first occurrence. -/
def dedupUsersAux (seen : List String) : List MiUser → List MiUser
  | [] => []
  | u :: us =>
    if seen.contains u.id then dedupUsersAux seen us
    else u :: dedupUsersAux (u.id :: seen) us

/-- Embeds `extractMentionedUsers` (lines 646-661): resolve each mention token with
the host defaulting to the acting user's host, silently drop failures, then
deduplicate by id. -/
def extractMentionedUsers (env : Env) (user : UserLite) (tokens : List MfmNode) : List MiUser :=
  let resolved := (extractMentionTokens tokens).filterMap
    (fun m => resolveUser env m.1 (match m.2 with | some h => some h | none => user.host))
  dedupUsersAux [] resolved

/-! ## Repository lookups -/

/-- Models `notesRepository.findOneByOrFail` (throws `EntityNotFound` on a miss). -/
def lookupNoteOrFail (env : Env) (id : String) : Except EditError MiNote :=
  match env.notes.find? (fun n => n.id == id) with
  | some n => .ok n
  | none => .error .notFound

/-- Models `usersRepository.findOneByOrFail`. -/
def lookupUserOrFail (env : Env) (id : String) : Except EditError MiUser :=
  match env.users.find? (fun u => u.id == id) with
  | some u => .ok u
  | none => .error .notFound

/-- Models `pollsRepository.findOneByOrFail({ noteId })`. -/
def lookupPollOrFail (env : Env) (noteId : String) : Except EditError IPoll :=
  match env.polls.find? (fun p => p.1 == noteId) with
  | some p => .ok p.2
  | none => .error .notFound

/-- Models `roleService.getUserPolicies(user.id).canPublicNote` with default `true`. -/
def canPublicNote (env : Env) (userId : String) : Bool :=
  ((env.canPublicNotePolicy.find? (fun p => p.1 == userId)).map Prod.snd).getD true

/-- Models `userBlockingService.checkBlocked(blockerId, blockeeId)`. -/
def checkBlocked (env : Env) (blockerId blockeeId : String) : Bool :=
  env.blocks.any (fun p => p.1 == blockerId && p.2 == blockeeId)

/-! ## Phase A: defaulting and channel resolution (lines 233-276)

Lines 244-245 (`data.reply = targetNote.reply`, `data.channel =
targetNote.channel`) read TypeORM relation properties that
`findOneByOrFail({ id })` leaves unloaded (`undefined`), so they never change
`data`; the embedding omits them.  Line 263 (`createdAt` defaulting) feeds a
field the rebuilt record does not contain (`new MiNote` stores only
`updatedAt`), so it is omitted as well. -/

/-- Lines 249-261: align the channel with the reply target's channel scope.
`channelsRepository.findOneBy` returns `null` on a miss, which is assigned
as-is. -/
def stepChannelScope (env : Env) (d : EditData) : EditData :=
  let d1 :=
    match d.reply, d.channel with
    | some rp, some ch =>
      if rp.channelId != some ch.id then
        match rp.channelId with
        | some rcid => { d with channel := env.channels.find? (fun c => c.id == rcid) }
        | none => { d with channel := none }
      else d
    | _, _ => d
  match d1.reply, d1.channel with
  | some rp, none =>
    (match rp.channelId with
     | some rcid => { d1 with channel := env.channels.find? (fun c => c.id == rcid) }
     | none => d1)
  | _, _ => d1

/-- Line 266: default the renote from the target note's `renoteId`. -/
def defaultRenote (env : Env) (tn : MiNote) (d : EditData) : Except EditError EditData :=
  match d.renote, tn.renoteId with
  | none, some rid =>
    (match lookupNoteOrFail env rid with
     | .error e => .error e
     | .ok rn => .ok { d with renote := some rn })
  | _, _ => .ok d

/-- Line 267: default the reply from the target note's `replyId`. -/
def defaultReply (env : Env) (tn : MiNote) (d : EditData) : Except EditError EditData :=
  match d.reply, tn.replyId with
  | none, some rid =>
    (match lookupNoteOrFail env rid with
     | .error e => .error e
     | .ok rp => .ok { d with reply := some rp })
  | _, _ => .ok d

/-- Line 268: default the poll from the target note. -/
def defaultPoll (env : Env) (targetId : String) (tn : MiNote) (d : EditData) :
    Except EditError EditData :=
  match d.poll with
  | none =>
    if tn.hasPoll then
      (match lookupPollOrFail env targetId with
       | .error e => .error e
       | .ok p => .ok { d with poll := some p })
    else .ok { d with poll := none }
  | some _ => .ok d

/-- Lines 269-272: default files, name, visible users and reaction acceptance
from the target note (`findBy(In ids)` drops missing rows). -/
def defaultsPure (env : Env) (tn : MiNote) (d : EditData) : EditData :=
  let d := if d.files == none then
    { d with files := some (tn.fileIds.filterMap
        (fun fid => env.driveFiles.find? (fun f => f.id == fid))) } else d
  let d := if d.name == none then { d with name := tn.name } else d
  let d := if d.visibleUsers == none then
    { d with visibleUsers := some (tn.visibleUserIds.filterMap
        (fun uid => env.users.find? (fun u => u.id == uid))) } else d
  if d.reactionAcceptance == none then
    { d with reactionAcceptance := tn.reactionAcceptance } else d

/-- Lines 273-275: a non-null channel forces public visibility, an empty
visible-user list and local-only distribution. -/
def forceChannel (d : EditData) : EditData :=
  if d.channel.isSome then
    { d with visibility := some "public", visibleUsers := some [], localOnly := some true }
  else d

/-- Phase A (lines 233-276): look up the target, run the channel-scope
adjustments and fill every unspecified field from the target note. -/
def resolveDefaults (env : Env) (targetId : String) (data0 : EditData) :
    Except EditError (MiNote × EditData) :=
  match lookupNoteOrFail env targetId with
  | .error _ => .error .noSuchNote
  | .ok tn =>
    let d := stepChannelScope env data0
    let d := if d.visibility == none then { d with visibility := some tn.visibility } else d
    let d := if d.localOnly == none then { d with localOnly := some tn.localOnly } else d
    match defaultRenote env tn d with
    | .error e => .error e
    | .ok d =>
      match defaultReply env tn d with
      | .error e => .error e
      | .ok d =>
        match defaultPoll env targetId tn d with
        | .error e => .error e
        | .ok d => .ok (tn, forceChannel (defaultsPure env tn d))

/-! ## Phase B: visibility resolution (lines 278-348) -/

/-- The text the keyword checks look at: `data.cw ?? data.text ?? ''`
(nullish coalescing, so a present-but-empty content warning shadows the body
text). -/
def checkedText (d : EditData) : String := d.cw.getD (d.text.getD "")

/-- Embeds `isQuote` (lines 622-626): a renote is a quote when it carries its own
text, content warning, non-empty file list or poll (JS truthiness: the empty
string is falsy). -/
def isQuoteD (d : EditData) : Bool :=
  d.renote.isSome &&
    ((match d.text with | some t => t != "" | none => false) ||
     (match d.cw with | some c => c != "" | none => false) ||
     (match d.files with | some fs => !fs.isEmpty | none => false) ||
     d.poll.isSome)

/-- Lines 278-285: a public, channel-less post is downgraded to `home` when
its checked text contains a sensitive keyword or the poster's role policy
forbids public notes. -/
def stepSensitive (env : Env) (user : UserLite) (d : EditData) : EditData :=
  if d.visibility == some "public" && d.channel == none then
    if isKeyWordIncluded (checkedText d) env.meta.sensitiveWords then
      { d with visibility := some "home" }
    else if canPublicNote env user.id == false then
      { d with visibility := some "home" }
    else d
  else d

/-- Lines 287-289: the prohibited-words check, thrown as the distinguishable
`ContainsProhibitedWordsError`. -/
def stepProhibited (env : Env) (d : EditData) : Except EditError Unit :=
  if isKeyWordIncluded (checkedText d) env.meta.prohibitedWords then
    .error .containsProhibitedWords
  else .ok ()

/-- Lines 291-295: a public post by a remote user on a silenced host is
downgraded to `home`. -/
def stepSilenced (env : Env) (user : UserLite) (d : EditData) : EditData :=
  if d.visibility == some "public" && isSilencedHost env.meta.silencedHosts user.host
      && user.host != none then
    { d with visibility := some "home" }
  else d

/-- The renote-visibility switch (lines 297-321), factored over the current
visibility: `public` imposes nothing; `home` caps `public` at `home`;
`followers` rejects other authors and otherwise forces `followers`;
`specified` rejects unconditionally; any other string falls through. -/
def resolveRenoteVisibility (rn : MiNote) (userId : String) (vis : Option String) :
    Except EditError (Option String) :=
  if rn.visibility == "public" then .ok vis
  else if rn.visibility == "home" then
    .ok (if vis == some "public" then some "home" else vis)
  else if rn.visibility == "followers" then
    if rn.userId != userId then .error .renoteNotAllowed
    else .ok (some "followers")
  else if rn.visibility == "specified" then .error .renoteNotAllowed
  else .ok vis

/-- Apply the renote switch to the edit data. -/
def stepRenote (userId : String) (d : EditData) : Except EditError EditData :=
  match d.renote with
  | some rn =>
    (match resolveRenoteVisibility rn userId d.visibility with
     | .error e => .error e
     | .ok v => .ok { d with visibility := v })
  | none => .ok d

/-- Lines 323-333: a pure (non-quote) renote of a local, different author is
rejected when that author has blocked the acting user (nested `if`s of the
source written as guard clauses). -/
def stepBlocked (env : Env) (user : UserLite) (d : EditData) : Except EditError Unit :=
  match d.renote with
  | some rn =>
    if isQuoteD d then .ok ()
    else if rn.userHost != none then .ok ()
    else if rn.userId == user.id then .ok ()
    else if checkBlocked env rn.userId user.id then .error .blocked
    else .ok ()
  | none => .ok ()

/-- Lines 335-338: replying to a non-public post caps `public` at `home`. -/
def stepReplyDowngrade (d : EditData) : EditData :=
  match d.reply with
  | some rp =>
    if rp.visibility != "public" && d.visibility == some "public" then
      { d with visibility := some "home" }
    else d
  | none => d

/-- Lines 341-343: renoting a local-only post outside a channel forces
local-only distribution. -/
def stepLocalOnlyRenote (d : EditData) : EditData :=
  match d.renote with
  | some rn => if rn.localOnly && d.channel == none then { d with localOnly := some true } else d
  | none => d

/-- Lines 346-348: replying to a local-only post outside a channel forces
local-only distribution. -/
def stepLocalOnlyReply (d : EditData) : EditData :=
  match d.reply with
  | some rp => if rp.localOnly && d.channel == none then { d with localOnly := some true } else d
  | none => d

/-- Lines 340-348: local-only inheritance from the renote and reply targets. -/
def stepLocalOnlyInherit (d : EditData) : EditData :=
  stepLocalOnlyReply (stepLocalOnlyRenote d)

/-- Phase B (lines 278-348): sensitive-word and policy downgrades, the
prohibited-words rejection, the silenced-host downgrade, the renote switch,
the blocking rejection, the reply downgrade and local-only inheritance, in
source order. -/
def resolveVisibility (env : Env) (user : UserLite) (d0 : EditData) :
    Except EditError EditData :=
  let d1 := stepSensitive env user d0
  match stepProhibited env d1 with
  | .error e => .error e
  | .ok _ =>
    let d2 := stepSilenced env user d1
    match stepRenote user.id d2 with
    | .error e => .error e
    | .ok d3 =>
      match stepBlocked env user d3 with
      | .error e => .error e
      | .ok _ => .ok (stepLocalOnlyInherit (stepReplyDowngrade d3))

/-! ## Phase C: text normalization, tags, emojis, mentions (lines 350-398) -/

/-- Lines 350-357: a truthy text is sliced to the maximum length and trimmed;
a null or empty text becomes `null`. -/
def truncTrimText (d : EditData) : EditData :=
  { d with text :=
      match d.text with
      | some t =>
        if t != "" then
          some (trimStr (if strLen t > DB_MAX_NOTE_TEXT_LENGTH
                         then takeStr DB_MAX_NOTE_TEXT_LENGTH t else t))
        else none
      | none => none }

/-- Lines 363-378: parse the body, content warning and poll choices (in that
order) when any of tags/emojis/mentions is not caller-supplied; a supplied
value (even an empty list) overrides derivation for its field. -/
def deriveTagsEmojisMentions (env : Env) (user : UserLite) (d : EditData) :
    List String × List String × List MiUser :=
  match d.apHashtags, d.apEmojis, d.apMentions with
  | some ts, some es, some ms => (ts, es, ms)
  | t?, e?, m? =>
    let tokens := match d.text with
      | some t => if t != "" then env.parse t else []
      | none => []
    let cwTokens := match d.cw with
      | some c => if c != "" then env.parse c else []
      | none => []
    let choiceTokens := match d.poll with
      | some p => (p.choices.map env.parse).flatten
      | none => []
    let combined := tokens ++ cwTokens ++ choiceTokens
    (t?.getD (extractHashtags combined),
     e?.getD (extractCustomEmojis combined),
     m?.getD (extractMentionedUsers env user combined))

/-- Line 380: keep only tags of at most 128 code points, then the first 32
(`filter(...).splice(0, 32)`). -/
def capTags (tags : List String) : List String :=
  (tags.filter (fun t => strLen t ≤ 128)).take 32

/-- Lines 382-384: a reply to someone else adds the reply author to the
mention set unless already present. -/
def addReplyMention (env : Env) (user : UserLite) (d : EditData) (mus : List MiUser) :
    Except EditError (List MiUser) :=
  match d.reply with
  | some rp =>
    if user.id != rp.userId && !(mus.any (fun u => u.id == rp.userId)) then
      (match lookupUserOrFail env rp.userId with
       | .error e => .error e
       | .ok u => .ok (mus ++ [u]))
    else .ok mus
  | none => .ok mus

/-- Lines 389-393: fold every explicitly visible user into the mention set. -/
def foldVisibleIntoMentions (vus : List MiUser) (mus : List MiUser) : List MiUser :=
  vus.foldl (fun acc u => if acc.any (fun x => x.id == u.id) then acc else acc ++ [u]) mus

/-- Lines 395-397: ensure the reply author is among the explicit visible
users of a specified-visibility reply. -/
def addReplyToVisible (env : Env) (d : EditData) (vus : List MiUser) :
    Except EditError (List MiUser) :=
  match d.reply with
  | some rp =>
    if !(vus.any (fun x => x.id == rp.userId)) then
      (match lookupUserOrFail env rp.userId with
       | .error e => .error e
       | .ok u => .ok (vus ++ [u]))
    else .ok vus
  | none => .ok vus

/-- Lines 386-398: the `specified`-visibility block; a null visible-user list
is rejected as `invalid param`, an empty one is accepted. -/
def stepSpecified (env : Env) (d : EditData) (mus : List MiUser) :
    Except EditError (EditData × List MiUser) :=
  if d.visibility == some "specified" then
    match d.visibleUsers with
    | none => .error .invalidParam
    | some vus =>
      let mus2 := foldVisibleIntoMentions vus mus
      (match addReplyToVisible env d vus with
       | .error e => .error e
       | .ok vus2 => .ok ({ d with visibleUsers := some vus2 }, mus2))
  else .ok (d, mus)

/-- Phase C (lines 350-398). -/
def resolveContent (env : Env) (user : UserLite) (d0 : EditData) :
    Except EditError (EditData × List String × List String × List MiUser) :=
  let dT := truncTrimText d0
  let tem := deriveTagsEmojisMentions env user dT
  match addReplyMention env user dT tem.2.2 with
  | .error e => .error e
  | .ok mus1 =>
    match stepSpecified env dT mus1 with
    | .error e => .error e
    | .ok (d2, mus2) => .ok (d2, capTags tem.1, tem.2.1, mus2)

/-! ## Record assembly (lines 400-455) -/

/-- The denormalized remote-mention blob (lines 442-455), built from the
remote subset of the mention set and the profile-url lookup. -/
def buildRemoteMentions (env : Env) (mus : List MiUser) : List RemoteMentionEntry :=
  (mus.filter (fun u => u.host != none)).map (fun u =>
    let url := match env.profileUrls.find? (fun p => p.1 == u.id) with
      | some p => p.2
      | none => none
    { uri := u.uri, url := url, username := u.username, host := u.host })

/-- Embeds `new MiNote({...})` (lines 400-455): the replacement record.  The
conditional post-assignments of the source (`note.uri`/`note.url` when
supplied, lines 438-439, and the mention fields when the mention set is
non-empty, lines 442-455) are computed up front and placed in one literal. -/
def buildNote (env : Env) (user : UserLite) (tn : MiNote) (d : EditData)
    (tags : List String) (emojis : List String) (mus : List MiUser) : MiNote :=
  let mentionsF : List String := if !mus.isEmpty then mus.map (fun u => u.id) else []
  let mentionedRemoteF : List RemoteMentionEntry :=
    if !mus.isEmpty then buildRemoteMentions env mus else []
  let uriF : Option String := if d.uri.isSome then d.uri else none
  let urlF : Option String := if d.url.isSome then d.url else none
  { id := tn.id
    updatedAt := env.now
    fileIds := match d.files with | some fs => fs.map (fun f => f.id) | none => []
    replyId := d.reply.map (fun rp => rp.id)
    renoteId := d.renote.map (fun rn => rn.id)
    channelId := d.channel.map (fun ch => ch.id)
    threadId := match d.reply with
      | some rp => (match rp.threadId with | some t => some t | none => some rp.id)
      | none => none
    name := d.name
    text := d.text
    cw := d.cw
    hasPoll := d.poll.isSome
    tags := tags.map normalizeForSearch
    emojis := emojis
    userId := user.id
    localOnly := d.localOnly.getD false
    reactionAcceptance := d.reactionAcceptance
    visibility := d.visibility.getD ""
    visibleUserIds :=
      if d.visibility == some "specified" then
        (match d.visibleUsers with | some vus => vus.map (fun u => u.id) | none => [])
      else []
    attachedFileTypes := match d.files with | some fs => fs.map (fun f => f.fileType) | none => []
    replyUserId := d.reply.map (fun rp => rp.userId)
    replyUserHost := d.reply.bind (fun rp => rp.userHost)
    renoteUserId := d.renote.map (fun rn => rn.userId)
    renoteUserHost := d.renote.bind (fun rn => rn.userHost)
    userHost := user.host
    mentions := mentionsF
    mentionedRemoteUsers := mentionedRemoteF
    uri := uriF
    url := urlF }

/-! ## The `edit` operation (lines 225-489) -/

/-- Everything the fan-out needs after a successful preparation. -/
structure Prepared where
  targetNote : MiNote
  d : EditData
  tags : List String
  emojis : List String
  mentionedUsers : List MiUser
  note : MiNote
deriving DecidableEq

/-- The validation/resolution/assembly part of `edit` (everything before the
store update). -/
def prepareEdit (env : Env) (user : UserLite) (targetId : String) (data0 : EditData) :
    Except EditError Prepared :=
  match resolveDefaults env targetId data0 with
  | .error e => .error e
  | .ok (tn, dA) =>
    match resolveVisibility env user dA with
    | .error e => .error e
    | .ok dB =>
      match resolveContent env user dB with
      | .error e => .error e
      | .ok (dC, tags, emojis, mus) =>
        .ok { targetNote := tn, d := dC, tags := tags, emojis := emojis,
              mentionedUsers := mus, note := buildNote env user tn dC tags emojis mus }

/-- Decidable equality for `Except` results. -/
instance exceptDecEq {ε α : Type} [DecidableEq ε] [DecidableEq α] :
    DecidableEq (Except ε α) := fun a b =>
  match a, b with
  | .ok x, .ok y =>
    match decEq x y with
    | isTrue h => isTrue (by rw [h])
    | isFalse h => isFalse (by intro hc; cases hc; exact h rfl)
  | .error x, .error y =>
    match decEq x y with
    | isTrue h => isTrue (by rw [h])
    | isFalse h => isFalse (by intro hc; cases hc; exact h rfl)
  | .ok _, .error _ => isFalse (by intro hc; cases hc)
  | .error _, .ok _ => isFalse (by intro hc; cases hc)

/-- Observable outcome of one `edit` call: its result, whether the store
update was reached, and whether the deferred fan-out was scheduled
(`setImmediate`, line 473, runs only when the update did not throw). -/
structure EditOutcome where
  result : Except EditError MiNote
  storeAttempted : Bool
  fanoutScheduled : Bool
deriving DecidableEq

/-- Embeds `edit` (lines 225-489): prepare, run the atomic update (reclassifying a
uniqueness violation as the `duplicated` error, lines 457-471), then schedule
the deferred fan-out. -/
def edit (env : Env) (user : UserLite) (targetId : String) (data0 : EditData) :
    EditOutcome :=
  match prepareEdit env user targetId data0 with
  | .error e => { result := .error e, storeAttempted := false, fanoutScheduled := false }
  | .ok p =>
    match env.storeResult with
    | .ok => { result := .ok p.note, storeAttempted := true, fanoutScheduled := true }
    | .dupKey => { result := .error .duplicated, storeAttempted := true, fanoutScheduled := false }
    | .otherError c =>
      { result := .error (.storageOther c), storeAttempted := true, fanoutScheduled := false }

/-! ## Fan-out (`postNoteEdited`, lines 491-620) -/

/-- The outbound federation activity: an announce for a pure renote, an
update for everything else (lines 628-637). -/
inductive Activity where
  | announce (renoteUri : String) (noteId : String)
  | update (noteId : String)
deriving DecidableEq

/-- Embeds `renderNoteOrRenoteActivity` (lines 628-637): `null` for a local-only
post, otherwise an announce (pure renote) or update activity. -/
def renderNoteOrRenoteActivity (env : Env) (d : EditData) (note : MiNote) : Option Activity :=
  if d.localOnly == some true then none
  else
    match d.renote with
    | some rn =>
      if !isQuoteD d then
        some (.announce (rn.uri.getD (env.configUrl ++ "/notes/" ++ rn.id)) note.id)
      else some (.update note.id)
    | none => some (.update note.id)

/-- The observable side effects of one fan-out pass.  `notifications` is the
set of `(target, reason)` pairs handed to the notification sink:
`postNoteEdited` never constructs a `NotificationManager` and never calls
`notificationService.createNotification`, so this list is always empty. -/
structure FanoutEffects where
  notesChartUpdated : Bool
  perUserChartUpdated : Bool
  hashtagsUpdated : Bool
  pollExpiryScheduled : Bool
  unreadInserts : List String
  streamPublished : Bool
  notifications : List (String × NotificationType)
  activityBuilt : Option Activity
  deliveredDirect : List String
  deliveredFollowers : Bool
  deliveredRelays : Bool
  channelUpdated : Bool
  searchIndexed : Bool
deriving DecidableEq

/-- Direct-delivery recipient from a reply or renote relation (lines 586-595):
when the related post's author is remote, look the author up and add them if
(still) remote. -/
def relatedRemoteRecipient (env : Env) (rel : Option MiNote) : List String :=
  match rel with
  | some r =>
    if r.userHost != none then
      match env.users.find? (fun u => u.id == r.userId) with
      | some u => if u.host != none then [u.id] else []
      | none => []
    else []
  | none => []

/-- Embeds `postNoteEdited` (lines 491-620).  The federation transport
(`ApDeliverManagerService` / `QueueService` / `RelayService`) is not under
`src/`; modelled from the spec (§4.6 "skip entirely if the post is
locality-restricted", §6 transport contract): delivery of a null activity is
a no-op, so the delivered sets are gated on an activity having been built.
Recipient accumulation itself (direct mentions, remote reply/renote author,
followers collection, relays) follows the source. -/
def postNoteEdited (env : Env) (note : MiNote) (user : UserLite) (d : EditData)
    (silent : Bool) (mentionedUsers : List MiUser) : Except EditError FanoutEffects :=
  let hashtagsUpdated := d.visibility == some "public" || d.visibility == some "home"
  let pollSch := match d.poll with | some p => p.expiresAt.isSome | none => false
  let channelUpdated := d.channel.isSome
  let searchIndexed := !(note.text == none && note.cw == none)
  let perUserChart := env.meta.enableChartsForRemoteUser || user.host == none
  if silent then
    .ok { notesChartUpdated := true, perUserChartUpdated := perUserChart,
          hashtagsUpdated := hashtagsUpdated, pollExpiryScheduled := pollSch,
          unreadInserts := [], streamPublished := false, notifications := [],
          activityBuilt := none, deliveredDirect := [], deliveredFollowers := false,
          deliveredRelays := false, channelUpdated := channelUpdated,
          searchIndexed := searchIndexed }
  else
    match (if d.visibility == some "specified" then
             d.visibleUsers.map (fun vus => (vus.filter (fun u => u.host == none)).map (fun u => u.id))
           else
             some ((mentionedUsers.filter (fun u => u.host == none)).map (fun u => u.id))) with
    | none => .error .invalidParam
    | some unread =>
      let apActive := user.host == none
      let activity := if apActive then renderNoteOrRenoteActivity env d note else none
      let direct :=
        ((mentionedUsers.filter (fun u => u.host != none)).map (fun u => u.id))
          ++ relatedRemoteRecipient env d.reply
          ++ relatedRemoteRecipient env d.renote
      .ok { notesChartUpdated := true, perUserChartUpdated := perUserChart,
            hashtagsUpdated := hashtagsUpdated, pollExpiryScheduled := pollSch,
            unreadInserts := unread, streamPublished := true, notifications := [],
            activityBuilt := activity,
            deliveredDirect := if apActive && activity.isSome then direct else [],
            deliveredFollowers := apActive && activity.isSome &&
              (note.visibility == "public" || note.visibility == "home" ||
               note.visibility == "followers"),
            deliveredRelays := apActive && activity.isSome && note.visibility == "public",
            channelUpdated := channelUpdated, searchIndexed := searchIndexed }

/-! ## Concrete instances for counterexamples and witnesses -/

/-- Target note used by the C1 counterexample. -/
def tnC1 : MiNote := { id := "n1", userId := "u1" }

/-- Environment of the C1 counterexample: one prohibited keyword. -/
def envC1 : Env := { notes := [tnC1], meta := { prohibitedWords := ["bad"] } }

/-- Acting user of the C1 counterexample. -/
def userC1 : UserLite := { id := "u1" }

/-- Edit payload of the C1 counterexample: clean content warning, prohibited
body text. -/
def dataC1 : EditData := { cw := some "ok", text := some "bad stuff" }

/-- Target note used by the C2 counterexample. -/
def tnC2 : MiNote := { id := "n1", userId := "u1" }

/-- A home-visibility note by another local author, renoted in-channel. -/
def rnHomeC2 : MiNote := { id := "n2", userId := "u9", visibility := "home" }

/-- The channel the C2 counterexample posts into. -/
def chC2 : MiChannel := { id := "ch1" }

/-- Environment of the C2 counterexample. -/
def envC2 : Env := { notes := [tnC2] }

/-- Acting user of the C2 counterexample. -/
def userC2 : UserLite := { id := "u1" }

/-- Edit payload of the C2 counterexample: a channel plus a renote of a
home-visibility note (with text, so the blocking check sees a quote). -/
def dataC2 : EditData :=
  { text := some "hi", renote := some rnHomeC2, channel := some chC2 }

/-- Target note used by the C8 counterexample. -/
def tnC8 : MiNote := { id := "n1", userId := "u1" }

/-- Environment of the C8 counterexample. -/
def envC8 : Env := { notes := [tnC8] }

/-- Acting user of the C8 counterexample. -/
def userC8 : UserLite := { id := "u1" }

/-- Edit payload of the C8 counterexample: `specified` visibility with an
explicitly empty visible-user list. -/
def dataC8 : EditData := { visibility := some "specified", visibleUsers := some [] }

/-- The local user mentioned (and replied to) in the C3 failing input. -/
def u2C3 : MiUser := { id := "u2", username := "bob" }

/-- The reply target of the C3 failing input, authored by `u2`. -/
def replyC3 : MiNote := { id := "n0", userId := "u2", visibility := "home" }

/-- The freshly mutated note of the C3 failing input. -/
def noteC3 : MiNote :=
  { id := "n1", userId := "u1", text := some "hi", visibility := "home",
    replyId := some "n0", replyUserId := some "u2" }

/-- Environment of the C3 failing input. -/
def envC3 : Env := { notes := [noteC3, replyC3], users := [u2C3] }

/-- Acting (local) user of the C3 failing input. -/
def userC3 : UserLite := { id := "u1" }

/-- Resolved edit data of the C3 failing input: a non-silent reply edit with
a non-self local reply author in the mention set. -/
def dC3 : EditData :=
  { text := some "hi", visibility := some "home", localOnly := some false,
    reply := some replyC3, visibleUsers := some [] }

/-- Unwrap a successful `Except`, with a fallback for the error case (used to
name the concrete values that witness instantiations feed to the theorems). -/
def okOr {α : Type} (x : Except EditError α) (fb : α) : α :=
  match x with
  | .ok v => v
  | .error _ => fb

/-- Fallback `Prepared` value (never reached in the witnesses). -/
def fbPrepared : Prepared :=
  { targetNote := { id := "", userId := "" }, d := {}, tags := [], emojis := [],
    mentionedUsers := [], note := { id := "", userId := "" } }

/-- Fallback `FanoutEffects` value (never reached in the witnesses). -/
def fbEff : FanoutEffects :=
  { notesChartUpdated := false, perUserChartUpdated := false, hashtagsUpdated := false,
    pollExpiryScheduled := false, unreadInserts := [], streamPublished := false,
    notifications := [], activityBuilt := none, deliveredDirect := [],
    deliveredFollowers := false, deliveredRelays := false, channelUpdated := false,
    searchIndexed := false }

/-- C1 witness payload: prohibited keyword in the body, no content warning. -/
def dataC1w : EditData := { text := some "bad x" }

/-- The defaulted edit data of the C1 witness run. -/
def dA1w : EditData := (okOr (resolveDefaults envC1 "n1" dataC1w) (tnC1, {})).2

/-- The prepared result of the C2 witness run. -/
def pC2w : Prepared := okOr (prepareEdit envC2 userC2 "n1" dataC2) fbPrepared

/-- Target note of the C4 end-to-end instance. -/
def tnC4 : MiNote := { id := "n1", userId := "u1" }

/-- A specified-visibility note by another author, used as renote target. -/
def rnSpecC4 : MiNote := { id := "r2", userId := "u9", visibility := "specified" }

/-- A followers-visibility note by another author. -/
def rnFolC4 : MiNote := { id := "r1", userId := "u9", visibility := "followers" }

/-- Environment of the C4 end-to-end instance. -/
def envC4 : Env := { notes := [tnC4] }

/-- Acting user of the C4 end-to-end instance. -/
def userC4 : UserLite := { id := "u1" }

/-- Edit payload of the C4 end-to-end instance: renote of a specified note. -/
def dataC4 : EditData := { renote := some rnSpecC4 }

/-- The defaulted edit data of the C4 end-to-end run. -/
def dA4 : EditData := (okOr (resolveDefaults envC4 "n1" dataC4) (tnC4, {})).2

/-- Target note of the C6 witness. -/
def tnC6 : MiNote := { id := "n1", userId := "u1" }

/-- Environment of the C6 witness: the store update hits a duplicate key. -/
def envC6 : Env := { notes := [tnC6], storeResult := .dupKey }

/-- Acting user of the C6 witness. -/
def userC6 : UserLite := { id := "u1" }

/-- Edit payload of the C6 witness. -/
def dataC6 : EditData := { text := some "hello" }

/-- The prepared result of the C6 witness run. -/
def pC6w : Prepared := okOr (prepareEdit envC6 userC6 "n1" dataC6) fbPrepared

/-- Target note of the C7 witness. -/
def tnC7 : MiNote := { id := "n1", userId := "u1" }

/-- Environment of the C7 witness. -/
def envC7 : Env := { notes := [tnC7] }

/-- Acting user of the C7 witness. -/
def userC7 : UserLite := { id := "u1" }

/-- Edit payload of the C7 witness: 40 caller-supplied hashtags (oversize). -/
def dataC7 : EditData := { apHashtags := some (List.replicate 40 "tag") }

/-- The prepared result of the C7 witness run. -/
def pC7w : Prepared := okOr (prepareEdit envC7 userC7 "n1" dataC7) fbPrepared

/-- The defaulted edit data of the C8 witness run. -/
def dA8 : EditData := (okOr (resolveDefaults envC8 "n1" dataC8) (tnC8, {})).2

/-- The prepared result of the C8 witness run. -/
def pC8w : Prepared := okOr (prepareEdit envC8 userC8 "n1" dataC8) fbPrepared

/-- Environment of the C9 witness. -/
def envC9 : Env := {}

/-- Mutated note of the C9 witness. -/
def noteC9 : MiNote := { id := "n1", userId := "u1", text := some "hi", visibility := "home" }

/-- Acting (local) user of the C9 witness. -/
def userC9 : UserLite := { id := "u1" }

/-- Resolved edit data of the C9 witness: a local-only post. -/
def dC9 : EditData :=
  { text := some "hi", visibility := some "home", localOnly := some true,
    visibleUsers := some [] }

/-- The fan-out effects of the C9 witness run. -/
def effC9 : FanoutEffects := okOr (postNoteEdited envC9 noteC9 userC9 dC9 false []) fbEff

/-- Target note of the C10 witness. -/
def tnC10 : MiNote := { id := "n1", userId := "u1", visibleUserIds := ["u5"] }

/-- A user carried by the target note's stale visible-user list. -/
def u5C10 : MiUser := { id := "u5", username := "eve" }

/-- Environment of the C10 witness. -/
def envC10 : Env := { notes := [tnC10], users := [u5C10] }

/-- Acting user of the C10 witness. -/
def userC10 : UserLite := { id := "u1" }

/-- Edit payload of the C10 witness: inherits the target's non-empty
visible-user list while visibility stays `public`. -/
def dataC10 : EditData := {}

/-- The prepared result of the C10 witness run. -/
def pC10w : Prepared := okOr (prepareEdit envC10 userC10 "n1" dataC10) fbPrepared

/-! ## Shape lemmas: each resolution step only rewrites the fields it owns -/

theorem stepSensitive_shape (env : Env) (user : UserLite) (d : EditData) :
    ∃ v, stepSensitive env user d = { d with visibility := v } ∧
      (v = d.visibility ∨ v = some "home") := by
  unfold stepSensitive
  split
  · split
    · exact ⟨some "home", rfl, Or.inr rfl⟩
    · split
      · exact ⟨some "home", rfl, Or.inr rfl⟩
      · exact ⟨d.visibility, rfl, Or.inl rfl⟩
  · exact ⟨d.visibility, rfl, Or.inl rfl⟩

theorem stepSilenced_shape (env : Env) (user : UserLite) (d : EditData) :
    ∃ v, stepSilenced env user d = { d with visibility := v } ∧
      (v = d.visibility ∨ v = some "home") := by
  unfold stepSilenced
  split
  · exact ⟨some "home", rfl, Or.inr rfl⟩
  · exact ⟨d.visibility, rfl, Or.inl rfl⟩

theorem stepReplyDowngrade_shape (d : EditData) :
    ∃ v, stepReplyDowngrade d = { d with visibility := v } ∧
      (v = d.visibility ∨ v = some "home") := by
  unfold stepReplyDowngrade
  split
  · split
    · exact ⟨some "home", rfl, Or.inr rfl⟩
    · exact ⟨d.visibility, rfl, Or.inl rfl⟩
  · exact ⟨d.visibility, rfl, Or.inl rfl⟩

theorem resolveRenoteVisibility_ok (rn : MiNote) (userId : String) (vis v : Option String)
    (h : resolveRenoteVisibility rn userId vis = .ok v) :
    v = vis ∨ v = some "home" ∨ v = some "followers" := by
  unfold resolveRenoteVisibility at h
  split at h
  · exact Or.inl (Except.ok.inj h).symm
  · split at h
    · rw [show v = (if vis == some "public" then some "home" else vis) from (Except.ok.inj h).symm]
      split
      · exact Or.inr (Or.inl rfl)
      · exact Or.inl rfl
    · split at h
      · split at h
        · cases h
        · exact Or.inr (Or.inr (Except.ok.inj h).symm)
      · split at h
        · cases h
        · exact Or.inl (Except.ok.inj h).symm

theorem stepRenote_shape (userId : String) (d d' : EditData)
    (h : stepRenote userId d = .ok d') :
    ∃ v, d' = { d with visibility := v } ∧
      (v = d.visibility ∨ v = some "home" ∨ v = some "followers") := by
  unfold stepRenote at h
  split at h
  · rename_i rn hrn
    cases hv : resolveRenoteVisibility rn userId d.visibility with
    | error e => rw [hv] at h; cases h
    | ok v =>
      rw [hv] at h
      exact ⟨v, (Except.ok.inj h).symm, resolveRenoteVisibility_ok rn userId d.visibility v hv⟩
  · exact ⟨d.visibility, (Except.ok.inj h).symm, Or.inl rfl⟩

theorem stepLocalOnlyRenote_shape (d : EditData) :
    ∃ lo, stepLocalOnlyRenote d = { d with localOnly := lo } ∧
      (lo = d.localOnly ∨ lo = some true) := by
  unfold stepLocalOnlyRenote
  split
  · split
    · exact ⟨some true, rfl, Or.inr rfl⟩
    · exact ⟨d.localOnly, rfl, Or.inl rfl⟩
  · exact ⟨d.localOnly, rfl, Or.inl rfl⟩

theorem stepLocalOnlyReply_shape (d : EditData) :
    ∃ lo, stepLocalOnlyReply d = { d with localOnly := lo } ∧
      (lo = d.localOnly ∨ lo = some true) := by
  unfold stepLocalOnlyReply
  split
  · split
    · exact ⟨some true, rfl, Or.inr rfl⟩
    · exact ⟨d.localOnly, rfl, Or.inl rfl⟩
  · exact ⟨d.localOnly, rfl, Or.inl rfl⟩

theorem stepLocalOnlyInherit_shape (d : EditData) :
    ∃ lo, stepLocalOnlyInherit d = { d with localOnly := lo } ∧
      (lo = d.localOnly ∨ lo = some true) := by
  unfold stepLocalOnlyInherit
  obtain ⟨lo1, h1, hv1⟩ := stepLocalOnlyRenote_shape d
  obtain ⟨lo2, h2, hv2⟩ := stepLocalOnlyReply_shape { d with localOnly := lo1 }
  rw [h1, h2]
  refine ⟨lo2, rfl, ?_⟩
  rcases hv2 with h | h
  · simp only [h]
    exact hv1
  · exact Or.inr h

theorem stepLocalOnlyRenote_channel (d : EditData) (hc : d.channel.isSome = true) :
    stepLocalOnlyRenote d = d := by
  unfold stepLocalOnlyRenote
  split
  · split
    · rename_i hcond
      cases hch : d.channel with
      | none => rw [hch] at hc; cases hc
      | some c => rw [hch] at hcond; simp at hcond
    · rfl
  · rfl

theorem stepLocalOnlyReply_channel (d : EditData) (hc : d.channel.isSome = true) :
    stepLocalOnlyReply d = d := by
  unfold stepLocalOnlyReply
  split
  · split
    · rename_i hcond
      cases hch : d.channel with
      | none => rw [hch] at hc; cases hc
      | some c => rw [hch] at hcond; simp at hcond
    · rfl
  · rfl

theorem stepLocalOnlyInherit_channel (d : EditData) (hc : d.channel.isSome = true) :
    stepLocalOnlyInherit d = d := by
  unfold stepLocalOnlyInherit
  rw [stepLocalOnlyRenote_channel d hc, stepLocalOnlyReply_channel d hc]

theorem resolveVisibility_shape (env : Env) (user : UserLite) (d d' : EditData)
    (h : resolveVisibility env user d = .ok d') :
    ∃ v lo, d' = { d with visibility := v, localOnly := lo } ∧
      (v = d.visibility ∨ v = some "home" ∨ v = some "followers") ∧
      (lo = d.localOnly ∨ lo = some true) ∧
      (d.channel.isSome = true → lo = d.localOnly) := by
  obtain ⟨v1, h1, hv1⟩ := stepSensitive_shape env user d
  simp only [resolveVisibility, h1] at h
  split at h
  · cases h
  · split at h
    · cases h
    · split at h
      · cases h
      · rename_i s1 d3 hr s2 u2 hb
        obtain ⟨v2, h2, hv2⟩ := stepSilenced_shape env user { d with visibility := v1 }
        have h2' : stepSilenced env user { d with visibility := v1 }
            = { d with visibility := v2 } := h2
        have hv2' : v2 = v1 ∨ v2 = some "home" := hv2
        rw [h2'] at hr
        obtain ⟨v3, h3, hv3⟩ := stepRenote_shape user.id { d with visibility := v2 } d3 hr
        have h3' : d3 = { d with visibility := v3 } := h3
        have hv3' : v3 = v2 ∨ v3 = some "home" ∨ v3 = some "followers" := hv3
        rw [h3'] at h
        obtain ⟨v4, h4, hv4⟩ := stepReplyDowngrade_shape { d with visibility := v3 }
        have h4' : stepReplyDowngrade { d with visibility := v3 } = { d with visibility := v4 } := h4
        have hv4' : v4 = v3 ∨ v4 = some "home" := hv4
        rw [h4'] at h
        obtain ⟨lo, h5, hlo⟩ := stepLocalOnlyInherit_shape { d with visibility := v4 }
        have h5' : stepLocalOnlyInherit { d with visibility := v4 }
            = { d with visibility := v4, localOnly := lo } := h5
        have hlo' : lo = d.localOnly ∨ lo = some true := hlo
        rw [h5'] at h
        refine ⟨v4, lo, (Except.ok.inj h).symm, ?_, hlo', ?_⟩
        · rcases hv4' with h' | h'
          · rcases hv3' with h'' | h'' | h''
            · rcases hv2' with h3'' | h3''
              · rcases hv1 with h4'' | h4''
                · exact Or.inl (by rw [h', h'', h3'', h4''])
                · exact Or.inr (Or.inl (by rw [h', h'', h3'', h4'']))
              · exact Or.inr (Or.inl (by rw [h', h'', h3'']))
            · exact Or.inr (Or.inl (by rw [h', h'']))
            · exact Or.inr (Or.inr (by rw [h', h'']))
          · exact Or.inr (Or.inl h')
        · intro hc
          have hch : ({ d with visibility := v4 } : EditData).channel.isSome = true := hc
          have heq := (stepLocalOnlyInherit_channel { d with visibility := v4 } hch).symm.trans h5'
          exact (congrArg EditData.localOnly heq).symm

theorem forceChannel_channel (d : EditData) : (forceChannel d).channel = d.channel := by
  unfold forceChannel
  split <;> rfl

theorem forceChannel_forced (d : EditData) (hc : (forceChannel d).channel.isSome = true) :
    (forceChannel d).visibility = some "public" ∧ (forceChannel d).visibleUsers = some [] ∧
      (forceChannel d).localOnly = some true := by
  rw [forceChannel_channel] at hc
  unfold forceChannel
  split
  · exact ⟨rfl, rfl, rfl⟩
  · rename_i hneg
    exact absurd hc hneg

theorem resolveDefaults_ok_shape (env : Env) (targetId : String) (data0 : EditData)
    (tn : MiNote) (dA : EditData)
    (h : resolveDefaults env targetId data0 = .ok (tn, dA)) :
    ∃ dX, dA = forceChannel dX := by
  simp only [resolveDefaults] at h
  split at h
  · cases h
  · split at h
    · cases h
    · split at h
      · cases h
      · split at h
        · cases h
        · simp only [Except.ok.injEq, Prod.mk.injEq] at h
          exact ⟨_, h.2.symm⟩

theorem stepSpecified_shape (env : Env) (d : EditData) (mus : List MiUser)
    (d' : EditData) (mus' : List MiUser)
    (h : stepSpecified env d mus = .ok (d', mus')) :
    ((d.visibility == some "specified") = false ∧ d' = d) ∨
      ((d.visibility == some "specified") = true ∧
        ∃ vus2, d' = { d with visibleUsers := some vus2 }) := by
  unfold stepSpecified at h
  split at h
  · rename_i hguard
    split at h
    · cases h
    · split at h
      · cases h
      · simp only [Except.ok.injEq, Prod.mk.injEq] at h
        exact Or.inr ⟨hguard, _, h.1.symm⟩
  · rename_i hguard
    simp only [Except.ok.injEq, Prod.mk.injEq] at h
    exact Or.inl ⟨by simpa using hguard, h.1.symm⟩

theorem resolveContent_shape (env : Env) (user : UserLite) (d : EditData)
    (d' : EditData) (tags emojis : List String) (mus : List MiUser)
    (h : resolveContent env user d = .ok (d', tags, emojis, mus)) :
    (∃ tags0, tags = capTags tags0) ∧
      ∃ tt vu, d' = { d with text := tt, visibleUsers := vu } ∧
        ((d.visibility == some "specified") = false → vu = d.visibleUsers) ∧
        ((d.visibility == some "specified") = true → vu.isSome = true) := by
  simp only [resolveContent] at h
  split at h
  · cases h
  · split at h
    · cases h
    · rename_i mus1 hm s2 d2 mus2 hs
      simp only [Except.ok.injEq, Prod.mk.injEq] at h
      obtain ⟨hd2, htags, hem, hmus⟩ := h
      refine ⟨⟨_, htags.symm⟩, ?_⟩
      rcases stepSpecified_shape env (truncTrimText d) mus1 d2 mus2 hs with
        ⟨hg, hdd⟩ | ⟨hg, vus2, hdd⟩
      · have hg' : ((d.visibility == some "specified") : Bool) = false := hg
        refine ⟨(truncTrimText d).text, d.visibleUsers, ?_, fun _ => rfl, ?_⟩
        · rw [← hd2, hdd]
          rfl
        · intro hgt
          rw [hg'] at hgt
          cases hgt
      · have hg' : ((d.visibility == some "specified") : Bool) = true := hg
        refine ⟨(truncTrimText d).text, some vus2, ?_, ?_, fun _ => rfl⟩
        · rw [← hd2, hdd]
          rfl
        · intro hgf
          rw [hg'] at hgf
          cases hgf

theorem prepareEdit_ok_inv (env : Env) (user : UserLite) (targetId : String)
    (data0 : EditData) (p : Prepared)
    (h : prepareEdit env user targetId data0 = .ok p) :
    ∃ tn dA dB dC tags emojis mus,
      resolveDefaults env targetId data0 = .ok (tn, dA) ∧
      resolveVisibility env user dA = .ok dB ∧
      resolveContent env user dB = .ok (dC, tags, emojis, mus) ∧
      p = { targetNote := tn, d := dC, tags := tags, emojis := emojis,
            mentionedUsers := mus, note := buildNote env user tn dC tags emojis mus } := by
  unfold prepareEdit at h
  split at h
  · cases h
  · split at h
    · cases h
    · split at h
      · cases h
      · rename_i hA sB dB hB sC dC tags emojis mus hC
        exact ⟨_, _, _, _, _, _, _, hA, hB, hC, (Except.ok.inj h).symm⟩

theorem buildNote_fields (env : Env) (user : UserLite) (tn : MiNote) (d : EditData)
    (tags emojis : List String) (mus : List MiUser) :
    (buildNote env user tn d tags emojis mus).visibility = d.visibility.getD "" ∧
    (buildNote env user tn d tags emojis mus).localOnly = d.localOnly.getD false ∧
    (buildNote env user tn d tags emojis mus).visibleUserIds =
      (if d.visibility == some "specified" then
        (match d.visibleUsers with | some vus => vus.map (fun u => u.id) | none => [])
       else []) ∧
    (buildNote env user tn d tags emojis mus).tags = tags.map normalizeForSearch ∧
    (buildNote env user tn d tags emojis mus).channelId = d.channel.map (fun ch => ch.id) := by
  exact ⟨rfl, rfl, rfl, rfl, rfl⟩

/-! ## Claim C2 -/

/-- C2, counterexample: an edit that renotes a home-visibility note inside a
channel produces a record with `channelId` set but visibility `"home"`, not
`"public"` — the channel rule forces `public` at resolution time (line 273)
but the later renote constraint (lines 302-307) still downgrades it, so the
claim "the record passed to the store update has visibility 'public' … and no
later resolution step changes these three fields" is false. -/
theorem c2_counterexample :
    dataC2.channel.isSome = true ∧
      (edit envC2 userC2 "n1" dataC2).result.toOption.map
        (fun n => (n.channelId, n.visibility, n.localOnly, n.visibleUserIds))
        = some (some "ch1", "home", true, []) := by
  constructor
  · decide
  · decide

/-- C2, amended: whenever the resolved channel is non-null, the record passed
to the store update has an empty visible-user list and `localOnly = true`
regardless of caller-supplied values, and its visibility — forced to
`"public"` when the channel was resolved — can still be narrowed by the later
silenced-host/renote/reply rules, ending in {public, home, followers}. -/
theorem c2_channel_forces_record (env : Env) (user : UserLite) (targetId : String)
    (data0 : EditData) (p : Prepared)
    (hP : prepareEdit env user targetId data0 = .ok p)
    (hCh : p.d.channel.isSome = true) :
    p.note.localOnly = true ∧ p.note.visibleUserIds = [] ∧
      (p.note.visibility = "public" ∨ p.note.visibility = "home" ∨
        p.note.visibility = "followers") := by
  obtain ⟨tn, dA, dB, dC, tags, emojis, mus, hA, hB, hC, hp⟩ :=
    prepareEdit_ok_inv env user targetId data0 p hP
  obtain ⟨v, lo, hBd, hv, _, hloCh⟩ := resolveVisibility_shape env user dA dB hB
  obtain ⟨_, tt, vu, hCd, hvuF, _⟩ := resolveContent_shape env user dB dC tags emojis mus hC
  subst hp
  subst hBd
  subst hCd
  have hChA : dA.channel.isSome = true := hCh
  obtain ⟨dX, hdx⟩ := resolveDefaults_ok_shape env targetId data0 tn dA hA
  have hforced := forceChannel_forced dX (by rw [← hdx]; exact hChA)
  rw [← hdx] at hforced
  obtain ⟨hvis, hvus, hlo'⟩ := hforced
  have hloEq : lo = dA.localOnly := hloCh hChA
  have hvset : v = some "public" ∨ v = some "home" ∨ v = some "followers" := by
    rcases hv with h | h | h
    · rw [hvis] at h
      exact Or.inl h
    · exact Or.inr (Or.inl h)
    · exact Or.inr (Or.inr h)
  have hguard : (v == some "specified") = false := by
    rcases hvset with h | h | h <;> rw [h] <;> decide
  refine ⟨?_, ?_, ?_⟩
  · rw [(buildNote_fields env user tn _ tags emojis mus).2.1]
    show lo.getD false = true
    rw [hloEq, hlo']
    rfl
  · rw [(buildNote_fields env user tn _ tags emojis mus).2.2.1]
    have hg : (({ { dA with visibility := v, localOnly := lo } with
        text := tt, visibleUsers := vu } : EditData).visibility == some "specified") = false :=
      hguard
    rw [hg]
    rfl
  · rw [(buildNote_fields env user tn _ tags emojis mus).1]
    show v.getD "" = "public" ∨ v.getD "" = "home" ∨ v.getD "" = "followers"
    rcases hvset with h | h | h <;> rw [h]
    · exact Or.inl rfl
    · exact Or.inr (Or.inl rfl)
    · exact Or.inr (Or.inr rfl)

/-- C2, witness: the amended theorem applied to the concrete channel edit of
the counterexample. -/
theorem c2_channel_forces_record_witness :
    pC2w.note.localOnly = true ∧ pC2w.note.visibleUserIds = [] ∧
      (pC2w.note.visibility = "public" ∨ pC2w.note.visibility = "home" ∨
        pC2w.note.visibility = "followers") :=
  c2_channel_forces_record envC2 userC2 "n1" dataC2 pC2w (by decide) (by decide)

/-! ## Claim C10 -/

/-- C10: in every record produced by `edit`, the stored `visibleUserIds` list
is empty whenever the final visibility is not `"specified"` (line 422: the
record assembler keeps the visible-user ids only under `specified`
visibility, discarding any caller-supplied or inherited list otherwise). -/
theorem c10_nonspecified_empty_visible (env : Env) (user : UserLite) (targetId : String)
    (data0 : EditData) (p : Prepared)
    (hP : prepareEdit env user targetId data0 = .ok p)
    (hNS : p.note.visibility ≠ "specified") :
    p.note.visibleUserIds = [] := by
  obtain ⟨tn, dA, dB, dC, tags, emojis, mus, hA, hB, hC, hp⟩ :=
    prepareEdit_ok_inv env user targetId data0 p hP
  subst hp
  obtain ⟨hvis, _, hvus, _, _⟩ := buildNote_fields env user tn dC tags emojis mus
  rw [hvus]
  cases hg : (dC.visibility == some "specified") with
  | false => rfl
  | true =>
    exfalso
    apply hNS
    rw [hvis]
    have : dC.visibility = some "specified" := by
      cases hv : dC.visibility with
      | none => rw [hv] at hg; cases hg
      | some s =>
        rw [hv] at hg
        have : s = "specified" := by
          have := of_decide_eq_true (by simpa using hg)
          simpa using this
        rw [this]
    rw [this]
    rfl

/-- C10, witness: applied to an edit whose target carried a stale non-empty
visible-user list while the resolved visibility stays `"public"`. -/
theorem c10_nonspecified_empty_visible_witness :
    pC10w.note.visibleUserIds = [] :=
  c10_nonspecified_empty_visible envC10 userC10 "n1" dataC10 pC10w (by decide) (by decide)

/-! ## Claim C8 -/

/-- C8, counterexample: an edit with `visibility = "specified"` and an
explicitly empty visible-user list passes every check (only a *null* list is
rejected at line 387) and stores a record with visibility `"specified"` and
an empty `visibleUserIds` — violating the claimed invariant that `specified`
visibility requires a non-empty visible-user set. -/
theorem c8_counterexample :
    (edit envC8 userC8 "n1" dataC8).result.toOption.map
      (fun n => (n.visibility, n.visibleUserIds)) = some ("specified", []) := by
  decide

/-- C8, amended: provided the visibility resolved from the caller/target is
one of the four classes (the code never validates the visibility string),
every record produced by `edit` has its visibility among the four classes,
and when it is `"specified"` the resolved visible-user list is non-null (a
null list is rejected with `invalid param`) and is stored id-for-id — but it
may be empty. -/
theorem c8_post_invariant (env : Env) (user : UserLite) (targetId : String)
    (data0 : EditData) (tn : MiNote) (dA : EditData) (p : Prepared)
    (hA : resolveDefaults env targetId data0 = .ok (tn, dA))
    (hV : dA.visibility = some "public" ∨ dA.visibility = some "home" ∨
          dA.visibility = some "followers" ∨ dA.visibility = some "specified")
    (hP : prepareEdit env user targetId data0 = .ok p) :
    (p.note.visibility = "public" ∨ p.note.visibility = "home" ∨
      p.note.visibility = "followers" ∨ p.note.visibility = "specified") ∧
    (p.note.visibility = "specified" →
      ∃ vus, p.d.visibleUsers = some vus ∧
        p.note.visibleUserIds = vus.map (fun u => u.id)) := by
  obtain ⟨tn', dA', dB, dC, tags, emojis, mus, hA', hB, hC, hp⟩ :=
    prepareEdit_ok_inv env user targetId data0 p hP
  rw [hA] at hA'
  simp only [Except.ok.injEq, Prod.mk.injEq] at hA'
  obtain ⟨h1, h2⟩ := hA'
  subst h1
  subst h2
  obtain ⟨v, lo, hBd, hv, _, _⟩ := resolveVisibility_shape env user dA dB hB
  obtain ⟨_, tt, vu, hCd, hvuF, hvuT⟩ := resolveContent_shape env user dB dC tags emojis mus hC
  subst hp
  subst hBd
  subst hCd
  have hvset : v = some "public" ∨ v = some "home" ∨ v = some "followers" ∨
      v = some "specified" := by
    rcases hv with h | h | h
    · rw [h]
      exact hV
    · exact Or.inr (Or.inl h)
    · exact Or.inr (Or.inr (Or.inl h))
  constructor
  · rw [(buildNote_fields env user tn _ tags emojis mus).1]
    show v.getD "" = "public" ∨ v.getD "" = "home" ∨ v.getD "" = "followers" ∨
      v.getD "" = "specified"
    rcases hvset with h | h | h | h <;> rw [h]
    · exact Or.inl rfl
    · exact Or.inr (Or.inl rfl)
    · exact Or.inr (Or.inr (Or.inl rfl))
    · exact Or.inr (Or.inr (Or.inr rfl))
  · intro hspec
    rw [(buildNote_fields env user tn _ tags emojis mus).1] at hspec
    have hspec' : v.getD "" = "specified" := hspec
    have hvspec : v = some "specified" := by
      rcases hvset with h | h | h | h
      · rw [h] at hspec'
        exact absurd hspec' (by decide)
      · rw [h] at hspec'
        exact absurd hspec' (by decide)
      · rw [h] at hspec'
        exact absurd hspec' (by decide)
      · exact h
    have hguard : (v == some "specified") = true := by
      rw [hvspec]
      decide
    have hvuS : vu.isSome = true := hvuT hguard
    cases hvu : vu with
    | none =>
      rw [hvu] at hvuS
      cases hvuS
    | some vus =>
      refine ⟨vus, rfl, ?_⟩
      rw [(buildNote_fields env user tn _ tags emojis mus).2.2.1]
      simp [hguard]

/-- C8, witness: the amended theorem applied to the counterexample's
specified-with-empty-list edit. -/
theorem c8_post_invariant_witness :
    (pC8w.note.visibility = "public" ∨ pC8w.note.visibility = "home" ∨
      pC8w.note.visibility = "followers" ∨ pC8w.note.visibility = "specified") ∧
    (pC8w.note.visibility = "specified" →
      ∃ vus, pC8w.d.visibleUsers = some vus ∧
        pC8w.note.visibleUserIds = vus.map (fun u => u.id)) :=
  c8_post_invariant envC8 userC8 "n1" dataC8 tnC8 dA8 pC8w (by decide) (by decide) (by decide)

/-! ## Claim C1 -/

/-- C1, counterexample: the keyword check reads `data.cw ?? data.text ?? ''`
(line 287), so when a content warning is present only *it* is checked.  An
edit whose body text contains a prohibited keyword but whose content warning
is clean passes the check and reaches the store update, refuting "subject
(content-warning) text **or** body text". -/
theorem c1_counterexample :
    isKeyWordIncluded "bad stuff" ["bad"] = true ∧
      dataC1.text = some "bad stuff" ∧
      envC1.meta.prohibitedWords = ["bad"] ∧
      (edit envC1 userC1 "n1" dataC1).result ≠ .error .containsProhibitedWords ∧
      (edit envC1 userC1 "n1" dataC1).storeAttempted = true := by
  exact ⟨by decide, by decide, by decide, by decide, by decide⟩

/-- C1, amended: the checked text is the content warning when present,
otherwise the body text (`data.cw ?? data.text ?? ''`); whenever *that* text
contains a prohibited keyword, `edit` throws the distinguishable
`ContainsProhibitedWordsError` before the store update is attempted, for
every combination of visibility and channel inputs. -/
theorem c1_prohibited_before_store (env : Env) (user : UserLite) (targetId : String)
    (data0 : EditData) (tn : MiNote) (dA : EditData)
    (hA : resolveDefaults env targetId data0 = .ok (tn, dA))
    (hK : isKeyWordIncluded (checkedText dA) env.meta.prohibitedWords = true) :
    (edit env user targetId data0).result = .error .containsProhibitedWords ∧
      (edit env user targetId data0).storeAttempted = false := by
  have hRV : resolveVisibility env user dA = .error .containsProhibitedWords := by
    obtain ⟨v1, h1, hv1⟩ := stepSensitive_shape env user dA
    have hPro : stepProhibited env { dA with visibility := v1 }
        = .error .containsProhibitedWords := by
      unfold stepProhibited
      have hK' : isKeyWordIncluded (checkedText { dA with visibility := v1 })
          env.meta.prohibitedWords = true := hK
      simp [hK']
    simp only [resolveVisibility, h1, hPro]
  have hPE : prepareEdit env user targetId data0 = .error .containsProhibitedWords := by
    unfold prepareEdit
    rw [hA]
    simp only [hRV]
  unfold edit
  rw [hPE]
  exact ⟨rfl, rfl⟩

/-- C1, witness: the amended theorem applied to an edit with no content
warning and a prohibited body text. -/
theorem c1_prohibited_before_store_witness :
    (edit envC1 userC1 "n1" dataC1w).result = .error .containsProhibitedWords ∧
      (edit envC1 userC1 "n1" dataC1w).storeAttempted = false :=
  c1_prohibited_before_store envC1 userC1 "n1" dataC1w tnC1 dA1w (by decide) (by decide)

/-! ## Claim C6 -/

/-- C6: when the store update fails with a uniqueness violation, `edit`
throws the distinguishable `duplicated` error and schedules no fan-out
(`setImmediate` at line 473 is reached only when the update succeeded); any
other storage error propagates unchanged, also without fan-out; and the
`duplicated` error is distinct from every other storage error. -/
theorem c6_duplicate_error (env : Env) (user : UserLite) (targetId : String)
    (data0 : EditData) (p : Prepared)
    (hP : prepareEdit env user targetId data0 = .ok p) :
    (env.storeResult = .dupKey →
      (edit env user targetId data0).result = .error .duplicated ∧
        (edit env user targetId data0).fanoutScheduled = false) ∧
    (∀ c, env.storeResult = .otherError c →
      (edit env user targetId data0).result = .error (.storageOther c) ∧
        (edit env user targetId data0).fanoutScheduled = false) ∧
    (∀ c, EditError.duplicated ≠ EditError.storageOther c) := by
  unfold edit
  rw [hP]
  refine ⟨?_, ?_, ?_⟩
  · intro hs
    rw [hs]
    exact ⟨rfl, rfl⟩
  · intro c hs
    rw [hs]
    exact ⟨rfl, rfl⟩
  · intro c h
    cases h

/-- C6, witness: a concrete edit whose store update reports a duplicate key. -/
theorem c6_duplicate_error_witness :
    ((edit envC6 userC6 "n1" dataC6).result = .error .duplicated ∧
      (edit envC6 userC6 "n1" dataC6).fanoutScheduled = false) ∧
      EditError.duplicated ≠ EditError.storageOther 0 :=
  ⟨(c6_duplicate_error envC6 userC6 "n1" dataC6 pC6w (by decide)).1 (by decide),
   (c6_duplicate_error envC6 userC6 "n1" dataC6 pC6w (by decide)).2.2 0⟩

/-! ## Claim C9 -/

/-- C9: for every fan-out pass over a locality-restricted resolved edit
(`localOnly = true`), no federation activity is built
(`renderNoteOrRenoteActivity` returns null, line 630) and nothing is
delivered to remote mentioned users, the followers collection, or relay
peers. -/
theorem c9_local_only_skips_federation (env : Env) (note : MiNote) (user : UserLite)
    (d : EditData) (silent : Bool) (mus : List MiUser) (eff : FanoutEffects)
    (hLo : d.localOnly = some true)
    (hF : postNoteEdited env note user d silent mus = .ok eff) :
    eff.activityBuilt = none ∧ eff.deliveredDirect = [] ∧
      eff.deliveredFollowers = false ∧ eff.deliveredRelays = false := by
  have hR : renderNoteOrRenoteActivity env d note = none := by
    unfold renderNoteOrRenoteActivity
    rw [hLo]
    simp
  simp only [postNoteEdited, hR, ite_self, Option.isSome_none, Bool.and_false,
    Bool.false_and, if_false] at hF
  split at hF
  · rw [← Except.ok.inj hF]
    exact ⟨rfl, rfl, rfl, rfl⟩
  · split at hF
    · cases hF
    · rw [← Except.ok.inj hF]
      exact ⟨rfl, rfl, rfl, rfl⟩

/-- C9, witness: a concrete non-silent local fan-out over a local-only edit. -/
theorem c9_local_only_skips_federation_witness :
    effC9.activityBuilt = none ∧ effC9.deliveredDirect = [] ∧
      effC9.deliveredFollowers = false ∧ effC9.deliveredRelays = false :=
  c9_local_only_skips_federation envC9 noteC9 userC9 dC9 false [] effC9
    (by decide) (by decide)

/-! ## Claim C3 -/

/-- C3, failing input: a non-silent fan-out pass over an edit whose reply
target is authored by a different local user (`u2`), with `u2` in the mention
set.  The claim requires a notification for this non-self reply/mention
target, but `postNoteEdited` (lines 491-620) never instantiates the
`NotificationManager` defined at lines 59-113 and never calls the
notification sink, so the emitted notification set is empty. -/
theorem c3_fanout_emits_no_notifications :
    (postNoteEdited envC3 noteC3 userC3 dC3 false [u2C3]).toOption.map
        (fun e => e.notifications) = some [] ∧
      [u2C3].any (fun u => u.id != userC3.id) = true ∧
      dC3.reply.map (fun rp => rp.userId) = some "u2" := by
  exact ⟨by decide, by decide, by decide⟩

/-! ## Claim C4 -/

/-- C4: the renote-visibility switch (lines 297-321) — a `public` target
imposes no constraint; a `home` target caps a `public` visibility at `home`
and leaves any other visibility unchanged; a `followers` target is rejected
unless the target's author is the acting user, in which case the resulting
visibility becomes `followers`; a `specified` target is rejected
unconditionally.  The last conjunct runs the rejection through the full
`edit` pipeline: once defaulting succeeded and the prohibited-words check
passes, a `specified` renote target makes `edit` throw the renote error. -/
theorem c4_renote_rules :
    (∀ (rn : MiNote) (uid : String) (vis : Option String), rn.visibility = "public" →
      resolveRenoteVisibility rn uid vis = .ok vis) ∧
    (∀ (rn : MiNote) (uid : String), rn.visibility = "home" →
      resolveRenoteVisibility rn uid (some "public") = .ok (some "home")) ∧
    (∀ (rn : MiNote) (uid : String) (vis : Option String), rn.visibility = "home" →
      vis ≠ some "public" → resolveRenoteVisibility rn uid vis = .ok vis) ∧
    (∀ (rn : MiNote) (uid : String) (vis : Option String), rn.visibility = "followers" →
      rn.userId ≠ uid → resolveRenoteVisibility rn uid vis = .error .renoteNotAllowed) ∧
    (∀ (rn : MiNote) (uid : String) (vis : Option String), rn.visibility = "followers" →
      rn.userId = uid → resolveRenoteVisibility rn uid vis = .ok (some "followers")) ∧
    (∀ (rn : MiNote) (uid : String) (vis : Option String), rn.visibility = "specified" →
      resolveRenoteVisibility rn uid vis = .error .renoteNotAllowed) ∧
    (∀ (env : Env) (user : UserLite) (targetId : String) (data0 : EditData)
        (tn : MiNote) (dA : EditData) (rn : MiNote),
      resolveDefaults env targetId data0 = .ok (tn, dA) →
      dA.renote = some rn → rn.visibility = "specified" →
      stepProhibited env (stepSensitive env user dA) = .ok () →
      (edit env user targetId data0).result = .error .renoteNotAllowed) := by
  refine ⟨?_, ?_, ?_, ?_, ?_, ?_, ?_⟩
  · intro rn uid vis h
    unfold resolveRenoteVisibility
    rw [h]
    rfl
  · intro rn uid h
    unfold resolveRenoteVisibility
    rw [h]
    rfl
  · intro rn uid vis h hne
    have hb : (vis == some "public") = false := beq_eq_false_iff_ne.mpr hne
    unfold resolveRenoteVisibility
    rw [h, hb]
    rfl
  · intro rn uid vis h hne
    have hb : (rn.userId != uid) = true := bne_iff_ne.mpr hne
    unfold resolveRenoteVisibility
    rw [h, hb]
    rfl
  · intro rn uid vis h heq
    have hb : (rn.userId != uid) = false := by
      rw [heq]
      exact bne_self_eq_false uid
    unfold resolveRenoteVisibility
    rw [h, hb]
    rfl
  · intro rn uid vis h
    unfold resolveRenoteVisibility
    rw [h]
    rfl
  · intro env user targetId data0 tn dA rn hA hrn hspec hok
    obtain ⟨v1, h1, _⟩ := stepSensitive_shape env user dA
    rw [h1] at hok
    obtain ⟨v2, h2, _⟩ := stepSilenced_shape env user { dA with visibility := v1 }
    have h2' : stepSilenced env user { dA with visibility := v1 }
        = { dA with visibility := v2 } := h2
    have hrrv : resolveRenoteVisibility rn user.id v2 = .error .renoteNotAllowed := by
      unfold resolveRenoteVisibility
      rw [hspec]
      rfl
    have hsr : stepRenote user.id { dA with visibility := v2 }
        = .error .renoteNotAllowed := by
      unfold stepRenote
      have hrn' : ({ dA with visibility := v2 } : EditData).renote = some rn := hrn
      rw [hrn']
      simp only [hrrv]
    have hRV : resolveVisibility env user dA = .error .renoteNotAllowed := by
      simp only [resolveVisibility, h1, hok, h2', hsr]
    have hPE : prepareEdit env user targetId data0 = .error .renoteNotAllowed := by
      unfold prepareEdit
      rw [hA]
      simp only [hRV]
    unfold edit
    rw [hPE]

/-- C4, witness: the step conjuncts applied to concrete followers/specified
renote targets, and the end-to-end conjunct applied to a concrete edit
renoting a specified-visibility note. -/
theorem c4_renote_rules_witness :
    resolveRenoteVisibility rnFolC4 "u1" (some "home") = .error .renoteNotAllowed ∧
      resolveRenoteVisibility rnFolC4 "u9" (some "home") = .ok (some "followers") ∧
      resolveRenoteVisibility rnSpecC4 "u1" (some "home") = .error .renoteNotAllowed ∧
      (edit envC4 userC4 "n1" dataC4).result = .error .renoteNotAllowed :=
  ⟨c4_renote_rules.2.2.2.1 rnFolC4 "u1" (some "home") (by decide) (by decide),
   c4_renote_rules.2.2.2.2.1 rnFolC4 "u9" (some "home") (by decide) (by decide),
   c4_renote_rules.2.2.2.2.2.1 rnSpecC4 "u1" (some "home") (by decide),
   c4_renote_rules.2.2.2.2.2.2 envC4 userC4 "n1" dataC4 tnC4 dA4 rnSpecC4
     (by decide) (by decide) (by decide) (by decide)⟩

/-! ## Claim C5 -/

theorem updateFirstReason_cons_pos (e : NQEntry) (es : List NQEntry) (t : String)
    (r : NotificationType) (h : (e.target == t) = true) :
    updateFirstReason (e :: es) t r = { e with reason := r } :: es := by
  simp [updateFirstReason, h]

theorem updateFirstReason_cons_neg (e : NQEntry) (es : List NQEntry) (t : String)
    (r : NotificationType) (h : (e.target == t) = false) :
    updateFirstReason (e :: es) t r = e :: updateFirstReason es t r := by
  simp [updateFirstReason, h]

theorem updateFirstReason_getReason (q : List NQEntry) (t : String) (r : NotificationType)
    (h : q.any (fun e => e.target == t) = true) :
    getReason (updateFirstReason q t r) t = some r := by
  induction q with
  | nil => cases h
  | cons e es ih =>
    cases he : (e.target == t) with
    | true =>
      rw [updateFirstReason_cons_pos e es t r he]
      unfold getReason
      simp [List.find?_cons, he]
    | false =>
      rw [updateFirstReason_cons_neg e es t r he]
      have h' : es.any (fun e => e.target == t) = true := by
        rw [List.any_cons, he] at h
        simpa using h
      unfold getReason
      simp only [List.find?_cons, he]
      exact ih h'

theorem countTarget_updateFirstReason (q : List NQEntry) (t' : String)
    (r : NotificationType) (t : String) :
    countTarget t (updateFirstReason q t' r) = countTarget t q := by
  induction q with
  | nil => rfl
  | cons e es ih =>
    cases he : (e.target == t') with
    | true =>
      rw [updateFirstReason_cons_pos e es t' r he]
      unfold countTarget
      cases hp : (e.target == t) with
      | true => simp [List.filter_cons, hp]
      | false => simp [List.filter_cons, hp]
    | false =>
      rw [updateFirstReason_cons_neg e es t' r he]
      unfold countTarget at ih ⊢
      cases hp : (e.target == t) with
      | true => simp [List.filter_cons, hp, ih]
      | false => simp [List.filter_cons, hp, ih]

theorem countTarget_eq_zero (q : List NQEntry) (t : String)
    (h : q.any (fun e => e.target == t) = false) : countTarget t q = 0 := by
  induction q with
  | nil => rfl
  | cons e es ih =>
    rw [List.any_cons] at h
    have h1 : (e.target == t) = false := by
      cases hx : (e.target == t) with
      | true => rw [hx] at h; simp at h
      | false => rfl
    have h2 : es.any (fun e => e.target == t) = false := by
      rw [h1] at h
      simpa using h
    have := ih h2
    unfold countTarget at this ⊢
    simp [List.filter_cons, h1, this]

theorem countTarget_nmPush (n : String) (q : List NQEntry) (t' : String)
    (r : NotificationType) (t : String) (hq : countTarget t q ≤ 1) :
    countTarget t (nmPush n q t' r) ≤ 1 := by
  unfold nmPush
  split
  · exact hq
  · split
    · split
      · rw [countTarget_updateFirstReason]
        exact hq
      · exact hq
    · rename_i hself hexist
      have hexf : q.any (fun e => e.target == t') = false := by
        cases hx : q.any (fun e => e.target == t') with
        | true => exact absurd hx hexist
        | false => rfl
      unfold countTarget
      rw [List.filter_append, List.length_append]
      cases hp : ((t' : String) == t) with
      | true =>
        have ht' : t' = t := eq_of_beq hp
        have hz : (List.filter (fun e : NQEntry => e.target == t) q).length = 0 := by
          have := countTarget_eq_zero q t (ht' ▸ hexf)
          unfold countTarget at this
          exact this
        have h1 : (List.filter (fun e : NQEntry => e.target == t)
            ([{ target := t', reason := r }] : List NQEntry)).length = 1 := by
          simp [List.filter_cons, hp]
        rw [hz, h1]
      | false =>
        have h1 : (List.filter (fun e : NQEntry => e.target == t)
            ([{ target := t', reason := r }] : List NQEntry)).length = 0 := by
          simp [List.filter_cons, hp]
        rw [h1, Nat.add_zero]
        exact hq

theorem countTarget_nmPushAll (n : String) (ps : List (String × NotificationType))
    (q : List NQEntry) (hq : ∀ t, countTarget t q ≤ 1) :
    ∀ t, countTarget t (nmPushAll n q ps) ≤ 1 := by
  induction ps generalizing q with
  | nil => exact hq
  | cons p ps ih =>
    intro t
    unfold nmPushAll
    rw [List.foldl_cons]
    exact ih (nmPush n q p.1 p.2) (fun t' => countTarget_nmPush n q p.1 p.2 t' (hq t')) t

/-- C5, counterexample: pushing `reply` then `renote` for the same target
leaves the stored reason `renote` — the code overwrites the stored reason on
*any* later non-`mention` trigger (line 87: `if (reason !== 'mention')`), so
"every other combination of reasons keeps the first-seen reason" is false. -/
theorem c5_counterexample :
    (nmPushAll "n0" [] [("u1", .reply), ("u1", .renote)]).map (fun e => e.reason)
      = [NotificationType.renote] := by
  decide

/-- C5, amended: for every sequence of `push` calls, at most one queue entry
exists per target (exactly one for a non-self target that was pushed); a push
targeting the notifier queues nothing; a later non-`mention` reason always
overwrites the stored reason — in particular `reply` after `mention` upgrades
to `reply` — while a later `mention` never changes the queue. -/
theorem c5_push_semantics :
    (∀ (n : String) (q : List NQEntry) (r : NotificationType), nmPush n q n r = q) ∧
    (∀ (n : String) (ps : List (String × NotificationType)) (t : String),
      countTarget t (nmPushAll n [] ps) ≤ 1) ∧
    (∀ (n : String) (q : List NQEntry) (t : String) (r : NotificationType),
      n ≠ t → q.any (fun e => e.target == t) = true → r ≠ NotificationType.mention →
      getReason (nmPush n q t r) t = some r) ∧
    (∀ (n : String) (q : List NQEntry) (t : String),
      q.any (fun e => e.target == t) = true →
      nmPush n q t NotificationType.mention = q) ∧
    (∀ (n : String) (q : List NQEntry) (t : String) (r : NotificationType),
      n ≠ t → q.any (fun e => e.target == t) = false →
      nmPush n q t r = q ++ [{ target := t, reason := r }]) := by
  refine ⟨?_, ?_, ?_, ?_, ?_⟩
  · intro n q r
    unfold nmPush
    rw [beq_self_eq_true]
    rfl
  · intro n ps t
    exact countTarget_nmPushAll n ps [] (fun t' => Nat.zero_le 1) t
  · intro n q t r hne hex hrm
    have h1 : (n == t) = false := beq_eq_false_iff_ne.mpr hne
    have h2 : (r != NotificationType.mention) = true := bne_iff_ne.mpr hrm
    unfold nmPush
    rw [h1, hex, h2]
    show getReason (updateFirstReason q t r) t = some r
    exact updateFirstReason_getReason q t r hex
  · intro n q t hex
    unfold nmPush
    cases h1 : (n == t) with
    | true => rfl
    | false =>
      rw [hex]
      rfl
  · intro n q t r hne hex
    have h1 : (n == t) = false := beq_eq_false_iff_ne.mpr hne
    unfold nmPush
    rw [h1, hex]
    rfl

/-- C5, witness: the amended semantics at concrete pushes — self push ignored,
single entry after two pushes for one target, `reply` overwrites `mention`,
a later `mention` leaves `reply`, and a fresh target is appended. -/
theorem c5_push_semantics_witness :
    nmPush "a" [] "a" .reply = [] ∧
      countTarget "b" (nmPushAll "a" [] [("b", .mention), ("b", .reply)]) ≤ 1 ∧
      getReason (nmPush "a" [{ target := "b", reason := .mention }] "b" .reply) "b"
        = some .reply ∧
      nmPush "a" [{ target := "b", reason := .reply }] "b" .mention
        = [{ target := "b", reason := .reply }] ∧
      nmPush "a" [] "b" .quote = [{ target := "b", reason := .quote }] :=
  ⟨c5_push_semantics.1 "a" [] .reply,
   c5_push_semantics.2.1 "a" [("b", .mention), ("b", .reply)] "b",
   c5_push_semantics.2.2.1 "a" [{ target := "b", reason := .mention }] "b" .reply
     (by decide) (by decide) (by decide),
   c5_push_semantics.2.2.2.1 "a" [{ target := "b", reason := .reply }] "b" (by decide),
   c5_push_semantics.2.2.2.2 "a" [] "b" .quote (by decide) (by decide)⟩

/-! ## Claim C7 -/

theorem capTags_length_le (l : List String) : (capTags l).length ≤ 32 :=
  List.length_take_le 32 (l.filter (fun t => strLen t ≤ 128))

theorem capTags_mem_len (l : List String) (t : String) (ht : t ∈ capTags l) :
    strLen t ≤ 128 := by
  have h1 : t ∈ l.filter (fun s => strLen s ≤ 128) := List.mem_of_mem_take ht
  exact of_decide_eq_true (List.mem_filter.mp h1).2

theorem normalizeForSearch_len (s : String) :
    strLen (normalizeForSearch s) = strLen s :=
  List.length_map s.data Char.toLower

theorem capTags_sublist (l : List String) : List.Sublist (capTags l) l :=
  (List.take_sublist 32 (l.filter (fun t => strLen t ≤ 128))).trans
    (List.filter_sublist l)

/-- C7: the tag cap (line 380) keeps at most 32 tags of at most 128 code
points each, in first-seen order (the capped list is a sublist of the input),
and truncates rather than erroring for any oversize input; normalization
(line 416) is code-point-count preserving, so the stored tag list of every
record produced by `edit` obeys both bounds. -/
theorem c7_tag_caps :
    (∀ tags0 : List String,
      (capTags tags0).length ≤ 32 ∧
      (∀ t ∈ (capTags tags0).map normalizeForSearch, strLen t ≤ 128) ∧
      List.Sublist (capTags tags0) tags0) ∧
    (∀ (env : Env) (user : UserLite) (targetId : String) (data0 : EditData) (p : Prepared),
      prepareEdit env user targetId data0 = .ok p →
      p.note.tags.length ≤ 32 ∧ ∀ t ∈ p.note.tags, strLen t ≤ 128) := by
  constructor
  · intro tags0
    refine ⟨capTags_length_le tags0, ?_, capTags_sublist tags0⟩
    intro t ht
    obtain ⟨t0, ht0, rfl⟩ := List.mem_map.mp ht
    rw [normalizeForSearch_len]
    exact capTags_mem_len tags0 t0 ht0
  · intro env user targetId data0 p hP
    obtain ⟨tn, dA, dB, dC, tags, emojis, mus, hA, hB, hC, hp⟩ :=
      prepareEdit_ok_inv env user targetId data0 p hP
    obtain ⟨⟨tags0, htags⟩, _⟩ := resolveContent_shape env user dB dC tags emojis mus hC
    subst hp
    have hnt : (buildNote env user tn dC tags emojis mus).tags
        = tags.map normalizeForSearch :=
      (buildNote_fields env user tn dC tags emojis mus).2.2.2.1
    constructor
    · show (buildNote env user tn dC tags emojis mus).tags.length ≤ 32
      rw [hnt, htags, List.length_map]
      exact capTags_length_le tags0
    · show ∀ t ∈ (buildNote env user tn dC tags emojis mus).tags, strLen t ≤ 128
      rw [hnt, htags]
      intro t ht
      obtain ⟨t0, ht0, rfl⟩ := List.mem_map.mp ht
      rw [normalizeForSearch_len]
      exact capTags_mem_len tags0 t0 ht0

/-- C7, witness: an edit supplying 40 explicit hashtags stores exactly 32. -/
theorem c7_tag_caps_witness :
    pC7w.note.tags.length ≤ 32 ∧ (∀ t ∈ pC7w.note.tags, strLen t ≤ 128) ∧
      pC7w.note.tags.length = 32 :=
  ⟨(c7_tag_caps.2 envC7 userC7 "n1" dataC7 pC7w (by decide)).1,
   (c7_tag_caps.2 envC7 userC7 "n1" dataC7 pC7w (by decide)).2,
   by decide⟩

end NoteEdit
